import Mathlib

/-!
Shallow embedding of the training engine in `src/model/cGAN.py` (class `CGAN`).

The generator and discriminator networks, the loss functions, the optimizers
and the tensor utilities are opaque collaborators of the trainer (they live in
other modules and are consumed through their interfaces), so they are
parameters of the model, collected in the `Env` structure.  Scalars (loss
values, thresholds, label targets) are rationals.  Autograd is modelled by
tagging every intermediate tensor with the set of parameter sides (generator /
discriminator) its value depends on through the computation graph;
`Tensor.detach` clears the tags, `backward` marks the gradient accumulators of
the tagged sides, exactly mirroring which `.backward()` calls can reach which
parameters in the source.
-/

/-- Monitoring / console events emitted while training, in program order.
They model the externally observable calls of `CGAN.train`:
`add_character_to_training`, `G.train() / G.eval()`, `D.train()`, the
processing of one non-degenerate batch, `writer.add_scalar`, `torch.save`,
`writer.add_image` and `writer.add_figure`.  Mode- and step-sensitive events
record the generator's train/eval mode and the step counter current at the
moment they are emitted. -/
inductive Ev (Img : Type) where
  | addChar (idx : ℕ)
  | setGMode (trainMode : Bool)
  | setDMode (trainMode : Bool)
  | procBatch (gModeTrain : Bool) (stepIdx : ℕ)
  | logScalar (tag : String) (value : ℚ) (stepIdx : ℕ)
  | savedModel (path : String)
  | addImage (tag : String) (img : Img) (gModeTrain : Bool) (epoch : ℕ)
  | addFigure (idx : ℕ) (gModeTrain : Bool) (epoch : ℕ)
  deriving DecidableEq

/-- Opaque collaborators of the trainer: the generator forward pass
(`G_traced(z, c)`), the discriminator forward pass (`D_traced(x, c)`), the two
loss functions (`self._G_loss`, `self._D_loss`, applied to a score tensor and a
constant target), `.mean().item()` on a score tensor, the
`finalizing_transform` image pipeline, indexing one image out of a batched
image tensor, and the two optimizer steps (`self._G_optim.step(None)`,
`self._D_optim.step(None)`). -/
structure Env (PG PD Noise Cond Img Score : Type) where
  G_fwd : PG → Noise → Cond → Img
  D_fwd : PD → Img → Cond → Score
  G_loss_fn : Score → ℚ → ℚ
  D_loss_fn : Score → ℚ → ℚ
  mean_fn : Score → ℚ
  finalizing_transform : Img → Img
  slice_at : Img → ℕ → Img
  G_optim_step : PG → PG
  D_optim_step : PD → PD

/-- Configuration globals read by `CGAN.train` (from `global_vars`):
the two stability thresholds, the soft-label flag (an argument of `train`),
the curriculum unlock interval `add_character_every`, the vocabulary size
`NUM_CHARS`, the checkpoint cadence `save_every`, the visualization cadence
`produce_every`, `num_characters_to_generate`, and the ordered key list of
`character_to_index_mapping` (a character's index is its position). -/
structure Config where
  D_loss_threshold : ℚ
  G_loss_threshold : ℚ
  use_soft_labels : Bool
  add_character_every : ℕ
  NUM_CHARS : ℕ
  save_every : ℕ
  produce_every : ℕ
  num_characters_to_generate : ℕ
  vocab : List Char

/-- Mutable state of one training run: the two parameter sets, the two
gradient accumulators (`true` when a backward pass has deposited a nonzero
gradient since the last `zero_grad`), the train/eval mode of each network, the
global step counter, the curriculum cursor `current_char_index`, the run
timestamp fixed in `CGAN.__init__`, the fixed latent points and conditioning
inputs drawn/built once before the epoch loop, the persisted-checkpoint store
(path to saved parameter set) and the trace of emitted events. -/
structure RunState (PG PD Noise Cond Img : Type) where
  Gparams : PG
  Dparams : PD
  Ggrad : Bool
  Dgrad : Bool
  G_mode_train : Bool
  D_mode_train : Bool
  step : ℕ
  current_char_index : ℕ
  current_datetime : String
  fixed_latent_points : Noise
  fixed_conditioning_inputs : Cond
  disk : String → Option (PG ⊕ PD)
  trace : List (Ev Img)

/-- One batch yielded by the data loader: its size `len(X)`, the image tensor
`X`, the condition vectors `c` (one-hot of the labels concatenated with the
style flag; the encoder is external) and the two fresh noise draws of lines
120 and 146. -/
structure Batch (Noise Cond Img : Type) where
  size : ℕ
  X : Img
  c : Cond
  z1 : Noise
  z2 : Noise

/-- Tensor value tagged with the parameter sides its computation graph
reaches: `depG` (generator parameters) and `depD` (discriminator
parameters). -/
structure Tensor (α : Type) where
  val : α
  depG : Bool
  depD : Bool
  deriving DecidableEq

/-- Graph-free tensor: an input of the batch (data, labels, fresh noise). -/
def inputT {α : Type} (v : α) : Tensor α := ⟨v, false, false⟩

/-- Model of `.detach()`: same value, cut off from the graph. -/
def detachT {α : Type} (t : Tensor α) : Tensor α := ⟨t.val, false, false⟩

section ModelDefs

variable {PG PD Noise Cond Img Score : Type}

/-- Generator forward pass on tagged tensors: the output depends on the
generator's parameters and on whatever its inputs depend on. -/
def gForwardT (M : Env PG PD Noise Cond Img Score) (g : PG)
    (z : Tensor Noise) (c : Tensor Cond) : Tensor Img :=
  ⟨M.G_fwd g z.val c.val, true || z.depG || c.depG, z.depD || c.depD⟩

/-- Discriminator forward pass on tagged tensors. -/
def dForwardT (M : Env PG PD Noise Cond Img Score) (d : PD)
    (x : Tensor Img) (c : Tensor Cond) : Tensor Score :=
  ⟨M.D_fwd d x.val c.val, x.depG || c.depG, true || x.depD || c.depD⟩

/-- Loss applied to a score tensor against a constant target. -/
def lossT (f : Score → ℚ → ℚ) (s : Tensor Score) (target : ℚ) : Tensor ℚ :=
  ⟨f s.val target, s.depG, s.depD⟩

/-- Average of two scalar loss tensors, as in line 129 of `cGAN.py`. -/
def avgT (a b : Tensor ℚ) : Tensor ℚ :=
  ⟨(a.val + b.val) / 2, a.depG || b.depG, a.depD || b.depD⟩

/-- Model of `loss.backward()` on state: every parameter side the loss
depends on receives gradient. -/
def backwardT (t : Tensor ℚ) (st : RunState PG PD Noise Cond Img) :
    RunState PG PD Noise Cond Img :=
  { st with Ggrad := st.Ggrad || t.depG, Dgrad := st.Dgrad || t.depD }

/-- Label-smoothing coefficient of lines 105-108: `0.75` when
`use_soft_labels` is set, else `1`. -/
def one_label_coefficient (use_soft_labels : Bool) : ℚ :=
  if use_soft_labels then 0.75 else 1

/-- Target of `D_loss_real` (line 127): `one_label_coefficient * one_label`,
per element. -/
def real_target (use_soft_labels : Bool) : ℚ :=
  one_label_coefficient use_soft_labels * 1

/-- Target of `D_loss_fake` (line 128): `zero_label`, never smoothed. -/
def fake_target : ℚ := 0

/-- Target of the generator loss (line 149): `one_label`, never smoothed. -/
def gen_target : ℚ := 1

/-- Fake image of the discriminator half-step (line 123): `G_traced(z, c)`
on the first fresh noise draw. -/
def G_sample1_T (M : Env PG PD Noise Cond Img Score)
    (st : RunState PG PD Noise Cond Img) (b : Batch Noise Cond Img) : Tensor Img :=
  gForwardT M st.Gparams (inputT b.z1) (inputT b.c)

/-- Discriminator score of the real images (line 124): `D_traced(X, c)`. -/
def D_real_T (M : Env PG PD Noise Cond Img Score)
    (st : RunState PG PD Noise Cond Img) (b : Batch Noise Cond Img) : Tensor Score :=
  dForwardT M st.Dparams (inputT b.X) (inputT b.c)

/-- Discriminator score of the detached fake images (line 125):
`D_traced(G_sample.detach(), c)`. -/
def D_fake_T (M : Env PG PD Noise Cond Img Score)
    (st : RunState PG PD Noise Cond Img) (b : Batch Noise Cond Img) : Tensor Score :=
  dForwardT M st.Dparams (detachT (G_sample1_T M st b)) (inputT b.c)

/-- Real-example loss of line 127. -/
def D_loss_real_T (M : Env PG PD Noise Cond Img Score) (cfg : Config)
    (st : RunState PG PD Noise Cond Img) (b : Batch Noise Cond Img) : Tensor ℚ :=
  lossT M.D_loss_fn (D_real_T M st b) (real_target cfg.use_soft_labels)

/-- Fake-example loss of line 128. -/
def D_loss_fake_T (M : Env PG PD Noise Cond Img Score)
    (st : RunState PG PD Noise Cond Img) (b : Batch Noise Cond Img) : Tensor ℚ :=
  lossT M.D_loss_fn (D_fake_T M st b) fake_target

/-- Combined discriminator loss of line 129: (loss_real + loss_fake) / 2. -/
def D_loss_T (M : Env PG PD Noise Cond Img Score) (cfg : Config)
    (st : RunState PG PD Noise Cond Img) (b : Batch Noise Cond Img) : Tensor ℚ :=
  avgT (D_loss_real_T M cfg st b) (D_loss_fake_T M st b)

/-- Combined discriminator loss value. -/
def D_loss_val (M : Env PG PD Noise Cond Img Score) (cfg : Config)
    (st : RunState PG PD Noise Cond Img) (b : Batch Noise Cond Img) : ℚ :=
  (D_loss_T M cfg st b).val

/-- Fake image of the generator half-step (lines 146-147), on the second
fresh noise draw and with gradients enabled (no detach). -/
def G_sample2_T (M : Env PG PD Noise Cond Img Score)
    (st : RunState PG PD Noise Cond Img) (b : Batch Noise Cond Img) : Tensor Img :=
  gForwardT M st.Gparams (inputT b.z2) (inputT b.c)

/-- Discriminator score of the non-detached fake images (line 148). -/
def D_fake2_T (M : Env PG PD Noise Cond Img Score)
    (st : RunState PG PD Noise Cond Img) (b : Batch Noise Cond Img) : Tensor Score :=
  dForwardT M st.Dparams (G_sample2_T M st b) (inputT b.c)

/-- Generator loss of line 149, against an unsmoothed target of 1. -/
def G_loss_T (M : Env PG PD Noise Cond Img Score)
    (st : RunState PG PD Noise Cond Img) (b : Batch Noise Cond Img) : Tensor ℚ :=
  lossT M.G_loss_fn (D_fake2_T M st b) gen_target

/-- Generator loss value. -/
def G_loss_val (M : Env PG PD Noise Cond Img Score)
    (st : RunState PG PD Noise Cond Img) (b : Batch Noise Cond Img) : ℚ :=
  (G_loss_T M st b).val

/-- Entry into a non-degenerate batch: line 101 (`step += 1`), recorded in
the trace with the generator's current mode. -/
def batchEnter (st : RunState PG PD Noise Cond Img) : RunState PG PD Noise Cond Img :=
  { st with step := st.step + 1,
            trace := st.trace ++ [Ev.procBatch st.G_mode_train (st.step + 1)] }

/-- Discriminator half-step, lines 117-139: reset the discriminator's
gradients, compute the combined loss from the real scores and the scores of
the detached fakes, apply backward and the discriminator optimizer step only
when the loss strictly exceeds `D_loss_threshold`, and report the loss and the
two mean responses in every case. -/
def Dhalf (M : Env PG PD Noise Cond Img Score) (cfg : Config)
    (b : Batch Noise Cond Img) (st : RunState PG PD Noise Cond Img) :
    RunState PG PD Noise Cond Img :=
  let st0 := { st with Dgrad := false }
  let dl := D_loss_T M cfg st b
  let st1 :=
    if cfg.D_loss_threshold < dl.val then
      let sb := backwardT dl st0
      { sb with Dparams := M.D_optim_step sb.Dparams }
    else st0
  { st1 with trace := st1.trace ++
      [Ev.logScalar "Loss/Discriminator" dl.val st1.step,
       Ev.logScalar "Discriminator response/to real images (average)"
         (M.mean_fn (D_real_T M st b).val) st1.step,
       Ev.logScalar "Discriminator response/to fake images (average)"
         (M.mean_fn (D_fake_T M st b).val) st1.step] }

/-- Generator half-step, lines 141-154: reset the generator's gradients,
compute the generator loss on a fresh fake (not detached), apply backward and
the generator optimizer step only when the loss strictly exceeds
`G_loss_threshold`, and report the loss in every case. -/
def Ghalf (M : Env PG PD Noise Cond Img Score) (cfg : Config)
    (b : Batch Noise Cond Img) (st : RunState PG PD Noise Cond Img) :
    RunState PG PD Noise Cond Img :=
  let st0 := { st with Ggrad := false }
  let gl := G_loss_T M st b
  let st1 :=
    if cfg.G_loss_threshold < gl.val then
      let sb := backwardT gl st0
      { sb with Gparams := M.G_optim_step sb.Gparams }
    else st0
  { st1 with trace := st1.trace ++ [Ev.logScalar "Loss/Generator" gl.val st1.step] }

/-- One iteration of the batch loop, lines 95-165: a batch of size exactly 1
is skipped (`continue`) leaving the state untouched; otherwise the step
counter is incremented once and the discriminator half-step is followed by
the generator half-step. -/
def trainBatch (M : Env PG PD Noise Cond Img Score) (cfg : Config)
    (b : Batch Noise Cond Img) (st : RunState PG PD Noise Cond Img) :
    RunState PG PD Noise Cond Img :=
  if b.size = 1 then st
  else Ghalf M cfg b (Dhalf M cfg b (batchEnter st))

end ModelDefs

/-- Curriculum advance of lines 86-88: at the start of epoch `epoch`, if
`epoch` is divisible by `add_character_every` and the cursor has not reached
`NUM_CHARS`, unlock one character and advance the cursor by one. -/
def curriculum_step (K N epoch cursor : ℕ) : ℕ :=
  if epoch % K = 0 ∧ cursor < N then cursor + 1 else cursor

/-- Characters eligible for random visualization, lines 192-193: the mapping
keys whose index is strictly below `current_char_index - 1`, plus `' '`. -/
def random_characters_to_generate (vocab : List Char) (cursor : ℕ) : List Char :=
  ((vocab.enum.filter (fun p => decide ((p.1 : ℤ) < (cursor : ℤ) - 1))).map Prod.snd) ++ [' ']

/-- Currently-unlocked vocabulary: every character whose index is strictly
below the curriculum cursor. -/
def unlocked_characters (vocab : List Char) (cursor : ℕ) : List Char :=
  vocab.take cursor

/-- Generator checkpoint path of line 172. -/
def G_model_path (dt : String) : String := "./data/models/G_" ++ dt ++ ".pt"

/-- Discriminator checkpoint path of line 173. -/
def D_model_path (dt : String) : String := "./data/models/D_" ++ dt ++ ".pt"

section RunDefs

variable {PG PD Noise Cond Img Score : Type}

/-- Durable write of one parameter set at a path, overwriting whatever the
path held (`torch.save`). -/
def diskWrite (s : String → Option (PG ⊕ PD)) (k : String) (v : PG ⊕ PD) :
    String → Option (PG ⊕ PD) :=
  fun q => if q = k then some v else s q

/-- Checkpoint block of lines 170-174: save the generator then the
discriminator under the run timestamp fixed at construction. -/
def saveCheckpoint (st : RunState PG PD Noise Cond Img) : RunState PG PD Noise Cond Img :=
  { st with
      disk := diskWrite (diskWrite st.disk (G_model_path st.current_datetime)
                (Sum.inl st.Gparams))
              (D_model_path st.current_datetime) (Sum.inr st.Dparams),
      trace := st.trace ++ [Ev.savedModel (G_model_path st.current_datetime),
                            Ev.savedModel (D_model_path st.current_datetime)] }

/-- Fixed-latent-grid forward pass of line 183: the generator applied to the
fixed latent points and the fixed conditioning inputs. -/
def fixed_point_images (M : Env PG PD Noise Cond Img Score)
    (g : PG) (lat : Noise) (cond : Cond) : Img :=
  M.G_fwd g lat cond

/-- Image events of the fixed-latent grid, lines 183-189: one image per
vocabulary symbol for style 0 (suffix `_P`, slices `0..NUM_CHARS-1`) and one
per symbol for style 1 (suffix `_G`, slices `NUM_CHARS..`), each through the
finalizing transform. -/
def fixed_grid_events (M : Env PG PD Noise Cond Img Score) (cfg : Config)
    (epoch : ℕ) (g : PG) (lat : Noise) (cond : Cond) (gmode : Bool) : List (Ev Img) :=
  (cfg.vocab.enum.map (fun p =>
     Ev.addImage ("Fixed latent points/" ++ String.mk [p.2] ++ "_P")
       (M.finalizing_transform (M.slice_at (fixed_point_images M g lat cond) p.1))
       gmode epoch)) ++
  (cfg.vocab.enum.map (fun p =>
     Ev.addImage ("Fixed latent points/" ++ String.mk [p.2] ++ "_G")
       (M.finalizing_transform (M.slice_at (fixed_point_images M g lat cond)
         (cfg.NUM_CHARS + p.1)))
       gmode epoch))

/-- Visualization block of lines 177-204: switch the generator to eval mode,
emit the fixed-latent grid, then, when the random draw list is nonempty, emit
`num_characters_to_generate` random-sample figures.  The sampled symbol and
style of each figure are random and left opaque. -/
def visualize (M : Env PG PD Noise Cond Img Score) (cfg : Config) (epoch : ℕ)
    (st : RunState PG PD Noise Cond Img) : RunState PG PD Noise Cond Img :=
  let st0 := { st with G_mode_train := false, trace := st.trace ++ [Ev.setGMode false] }
  let st1 := { st0 with trace := st0.trace ++
    (fixed_grid_events M cfg epoch st0.Gparams st0.fixed_latent_points
      st0.fixed_conditioning_inputs st0.G_mode_train) }
  let rcg := random_characters_to_generate cfg.vocab st1.current_char_index
  if rcg = [] then st1
  else { st1 with trace := st1.trace ++
    ((List.range cfg.num_characters_to_generate).map
      (fun i => Ev.addFigure i st1.G_mode_train epoch)) }

/-- Curriculum unlock check of lines 86-88: when the epoch number is
divisible by `add_character_every` and the cursor has not reached
`NUM_CHARS`, notify the dataset of the newly unlocked character and advance
the cursor by one. -/
def unlockPhase (cfg : Config) (epoch : ℕ)
    (st : RunState PG PD Noise Cond Img) : RunState PG PD Noise Cond Img :=
  if epoch % cfg.add_character_every = 0 ∧ st.current_char_index < cfg.NUM_CHARS then
    { st with current_char_index := st.current_char_index + 1,
              trace := st.trace ++ [Ev.addChar st.current_char_index] }
  else st

/-- Mode switches of lines 90-91: `self._G.train()` then `self._D.train()`. -/
def toTrainMode (st : RunState PG PD Noise Cond Img) : RunState PG PD Noise Cond Img :=
  { st with G_mode_train := true, D_mode_train := true,
            trace := st.trace ++ [Ev.setGMode true, Ev.setDMode true] }

/-- Body of one epoch, lines 84-204: curriculum unlock check, switch both
networks to train mode, fold the batch loop, then the checkpoint cadence and
the visualization cadence. -/
def epochBody (M : Env PG PD Noise Cond Img Score) (cfg : Config)
    (batches : List (Batch Noise Cond Img)) (epoch : ℕ)
    (st : RunState PG PD Noise Cond Img) : RunState PG PD Noise Cond Img :=
  let st2 := toTrainMode (unlockPhase cfg epoch st)
  let st3 := batches.foldl (fun s b => trainBatch M cfg b s) st2
  let st4 := if epoch % cfg.save_every = 0 then saveCheckpoint st3 else st3
  if epoch % cfg.produce_every = 0 then visualize M cfg epoch st4 else st4

/-- Epoch loop starting at epoch number `e` and running `k` more epochs;
`data e` is the sequence of batches the loader yields in epoch `e`. -/
def runFrom (M : Env PG PD Noise Cond Img Score) (cfg : Config)
    (data : ℕ → List (Batch Noise Cond Img)) :
    ℕ → ℕ → RunState PG PD Noise Cond Img → RunState PG PD Noise Cond Img
  | _, 0, st => st
  | e, Nat.succ k, st => runFrom M cfg data (e + 1) k (epochBody M cfg (data e) e st)

/-- Full training run of `CGAN.train`: epochs `1 .. n_epochs` in order. -/
def runTrain (M : Env PG PD Noise Cond Img Score) (cfg : Config)
    (data : ℕ → List (Batch Noise Cond Img)) (n_epochs : ℕ)
    (st : RunState PG PD Noise Cond Img) : RunState PG PD Noise Cond Img :=
  runFrom M cfg data 1 n_epochs st

/-- State right before the epoch loop: parameters and run timestamp from
`CGAN.__init__` (both networks start in train mode, no gradients pending),
`step = 0` (line 83), the starting cursor
`character_to_index_mapping[next_letter_to_add]` (line 54), and the fixed
latent points and conditioning inputs drawn/built once in lines 63-73. -/
def initState (g : PG) (d : PD) (dt : String) (start_index : ℕ)
    (lat : Noise) (cond : Cond) : RunState PG PD Noise Cond Img :=
  { Gparams := g, Dparams := d, Ggrad := false, Dgrad := false,
    G_mode_train := true, D_mode_train := true, step := 0,
    current_char_index := start_index, current_datetime := dt,
    fixed_latent_points := lat, fixed_conditioning_inputs := cond,
    disk := fun _ => none, trace := [] }

end RunDefs

/-- Checks that a trace event respects the generator's mode discipline: every
batch is processed with the generator in train mode and every visualization
artifact is produced with the generator in eval mode. -/
def modeOK {Img : Type} : Ev Img → Bool
  | Ev.procBatch m _ => m
  | Ev.addImage _ _ m _ => !m
  | Ev.addFigure _ m _ => !m
  | _ => true

/-- Checks that a saved-model event writes one of the two run-scoped
checkpoint paths derived from the timestamp `dt`. -/
def pathOK {Img : Type} (dt : String) : Ev Img → Bool
  | Ev.savedModel p => decide (p = G_model_path dt) || decide (p = D_model_path dt)
  | _ => true

/-- Concrete rational-valued environment used to exercise the model on
explicit inputs: every opaque collaborator is instantiated with a simple
arithmetic function and both optimizer steps add 1 to the parameters. -/
def envQ : Env ℚ ℚ ℚ ℚ ℚ ℚ :=
  { G_fwd := fun g z c => g + z + c
    D_fwd := fun d x c => d + x + c
    G_loss_fn := fun s t => s - t
    D_loss_fn := fun s t => s - t
    mean_fn := fun s => s
    finalizing_transform := fun i => i
    slice_at := fun i n => i + (n : ℚ)
    G_optim_step := fun g => g + 1
    D_optim_step := fun d => d + 1 }

/-- Concrete configuration used to exercise the model: thresholds low enough
that both gates fire on the sample batch, a two-character vocabulary and all
cadences equal to 1. -/
def cfgQ : Config :=
  { D_loss_threshold := -10
    G_loss_threshold := -10
    use_soft_labels := false
    add_character_every := 2
    NUM_CHARS := 2
    save_every := 1
    produce_every := 1
    num_characters_to_generate := 1
    vocab := [' ', 'a'] }

/-- Concrete configuration whose thresholds are high enough that both gates
stay closed on the sample batch. -/
def cfgQhi : Config :=
  { cfgQ with D_loss_threshold := 10, G_loss_threshold := 10 }

/-- Concrete non-degenerate batch of size 2. -/
def bQ : Batch ℚ ℚ ℚ := { size := 2, X := 0, c := 0, z1 := 0, z2 := 0 }

/-- Concrete degenerate batch of size 1. -/
def b1Q : Batch ℚ ℚ ℚ := { size := 1, X := 5, c := 7, z1 := 1, z2 := 2 }

/-- Concrete starting state. -/
def stQ : RunState ℚ ℚ ℚ ℚ ℚ := initState 0 0 "run" 1 0 0

/-- Concrete loader: one batch of size 2 per epoch. -/
def dataQ : ℕ → List (Batch ℚ ℚ ℚ) := fun _ => [bQ]

section FrameLemmas

variable {PG PD Noise Cond Img Score : Type}
variable (M : Env PG PD Noise Cond Img Score) (cfg : Config)
variable (b : Batch Noise Cond Img) (st : RunState PG PD Noise Cond Img)

@[simp] lemma batchEnter_Gparams : (batchEnter st).Gparams = st.Gparams := rfl

@[simp] lemma batchEnter_Dparams : (batchEnter st).Dparams = st.Dparams := rfl

@[simp] lemma batchEnter_step : (batchEnter st).step = st.step + 1 := rfl

@[simp] lemma batchEnter_cci : (batchEnter st).current_char_index = st.current_char_index := rfl

@[simp] lemma batchEnter_dt : (batchEnter st).current_datetime = st.current_datetime := rfl

@[simp] lemma batchEnter_lat : (batchEnter st).fixed_latent_points = st.fixed_latent_points := rfl

@[simp] lemma batchEnter_cond :
    (batchEnter st).fixed_conditioning_inputs = st.fixed_conditioning_inputs := rfl

@[simp] lemma batchEnter_gmode : (batchEnter st).G_mode_train = st.G_mode_train := rfl

@[simp] lemma batchEnter_dmode : (batchEnter st).D_mode_train = st.D_mode_train := rfl

@[simp] lemma batchEnter_disk : (batchEnter st).disk = st.disk := rfl

@[simp] lemma batchEnter_trace :
    (batchEnter st).trace = st.trace ++ [Ev.procBatch st.G_mode_train (st.step + 1)] := rfl

@[simp] lemma Dhalf_Gparams : (Dhalf M cfg b st).Gparams = st.Gparams := by
  simp only [Dhalf]; split <;> rfl

@[simp] lemma Dhalf_Ggrad : (Dhalf M cfg b st).Ggrad = st.Ggrad := by
  simp only [Dhalf]; split <;> simp [backwardT, D_loss_T, avgT, D_loss_real_T,
    D_loss_fake_T, lossT, D_real_T, D_fake_T, dForwardT, detachT, inputT]

@[simp] lemma Dhalf_step : (Dhalf M cfg b st).step = st.step := by
  simp only [Dhalf]; split <;> rfl

@[simp] lemma Dhalf_cci : (Dhalf M cfg b st).current_char_index = st.current_char_index := by
  simp only [Dhalf]; split <;> rfl

@[simp] lemma Dhalf_dt : (Dhalf M cfg b st).current_datetime = st.current_datetime := by
  simp only [Dhalf]; split <;> rfl

@[simp] lemma Dhalf_lat : (Dhalf M cfg b st).fixed_latent_points = st.fixed_latent_points := by
  simp only [Dhalf]; split <;> rfl

@[simp] lemma Dhalf_cond :
    (Dhalf M cfg b st).fixed_conditioning_inputs = st.fixed_conditioning_inputs := by
  simp only [Dhalf]; split <;> rfl

@[simp] lemma Dhalf_gmode : (Dhalf M cfg b st).G_mode_train = st.G_mode_train := by
  simp only [Dhalf]; split <;> rfl

@[simp] lemma Dhalf_dmode : (Dhalf M cfg b st).D_mode_train = st.D_mode_train := by
  simp only [Dhalf]; split <;> rfl

@[simp] lemma Dhalf_disk : (Dhalf M cfg b st).disk = st.disk := by
  simp only [Dhalf]; split <;> rfl

@[simp] lemma Ghalf_Dparams : (Ghalf M cfg b st).Dparams = st.Dparams := by
  simp only [Ghalf]; split <;> rfl

@[simp] lemma Ghalf_step : (Ghalf M cfg b st).step = st.step := by
  simp only [Ghalf]; split <;> rfl

@[simp] lemma Ghalf_cci : (Ghalf M cfg b st).current_char_index = st.current_char_index := by
  simp only [Ghalf]; split <;> rfl

@[simp] lemma Ghalf_dt : (Ghalf M cfg b st).current_datetime = st.current_datetime := by
  simp only [Ghalf]; split <;> rfl

@[simp] lemma Ghalf_lat : (Ghalf M cfg b st).fixed_latent_points = st.fixed_latent_points := by
  simp only [Ghalf]; split <;> rfl

@[simp] lemma Ghalf_cond :
    (Ghalf M cfg b st).fixed_conditioning_inputs = st.fixed_conditioning_inputs := by
  simp only [Ghalf]; split <;> rfl

@[simp] lemma Ghalf_gmode : (Ghalf M cfg b st).G_mode_train = st.G_mode_train := by
  simp only [Ghalf]; split <;> rfl

@[simp] lemma Ghalf_dmode : (Ghalf M cfg b st).D_mode_train = st.D_mode_train := by
  simp only [Ghalf]; split <;> rfl

@[simp] lemma Ghalf_disk : (Ghalf M cfg b st).disk = st.disk := by
  simp only [Ghalf]; split <;> rfl

@[simp] lemma trainBatch_cci :
    (trainBatch M cfg b st).current_char_index = st.current_char_index := by
  simp only [trainBatch]; split <;> simp

@[simp] lemma trainBatch_dt :
    (trainBatch M cfg b st).current_datetime = st.current_datetime := by
  simp only [trainBatch]; split <;> simp

@[simp] lemma trainBatch_lat :
    (trainBatch M cfg b st).fixed_latent_points = st.fixed_latent_points := by
  simp only [trainBatch]; split <;> simp

@[simp] lemma trainBatch_cond :
    (trainBatch M cfg b st).fixed_conditioning_inputs = st.fixed_conditioning_inputs := by
  simp only [trainBatch]; split <;> simp

@[simp] lemma trainBatch_gmode :
    (trainBatch M cfg b st).G_mode_train = st.G_mode_train := by
  simp only [trainBatch]; split <;> simp

@[simp] lemma trainBatch_dmode :
    (trainBatch M cfg b st).D_mode_train = st.D_mode_train := by
  simp only [trainBatch]; split <;> simp

@[simp] lemma trainBatch_disk : (trainBatch M cfg b st).disk = st.disk := by
  simp only [trainBatch]; split <;> simp

@[simp] lemma saveCheckpoint_Gparams :
    (saveCheckpoint st : RunState PG PD Noise Cond Img).Gparams = st.Gparams := rfl

@[simp] lemma saveCheckpoint_Dparams :
    (saveCheckpoint st : RunState PG PD Noise Cond Img).Dparams = st.Dparams := rfl

@[simp] lemma saveCheckpoint_step : (saveCheckpoint st).step = st.step := rfl

@[simp] lemma saveCheckpoint_cci :
    (saveCheckpoint st).current_char_index = st.current_char_index := rfl

@[simp] lemma saveCheckpoint_dt :
    (saveCheckpoint st).current_datetime = st.current_datetime := rfl

@[simp] lemma saveCheckpoint_lat :
    (saveCheckpoint st).fixed_latent_points = st.fixed_latent_points := rfl

@[simp] lemma saveCheckpoint_cond :
    (saveCheckpoint st).fixed_conditioning_inputs = st.fixed_conditioning_inputs := rfl

@[simp] lemma saveCheckpoint_gmode : (saveCheckpoint st).G_mode_train = st.G_mode_train := rfl

@[simp] lemma saveCheckpoint_trace :
    (saveCheckpoint st).trace = st.trace ++
      [Ev.savedModel (G_model_path st.current_datetime),
       Ev.savedModel (D_model_path st.current_datetime)] := rfl

@[simp] lemma visualize_Gparams :
    (visualize M cfg e st).Gparams = st.Gparams := by
  simp only [visualize]; split <;> rfl

@[simp] lemma visualize_Dparams :
    (visualize M cfg e st).Dparams = st.Dparams := by
  simp only [visualize]; split <;> rfl

@[simp] lemma visualize_step : (visualize M cfg e st).step = st.step := by
  simp only [visualize]; split <;> rfl

@[simp] lemma visualize_cci :
    (visualize M cfg e st).current_char_index = st.current_char_index := by
  simp only [visualize]; split <;> rfl

@[simp] lemma visualize_dt :
    (visualize M cfg e st).current_datetime = st.current_datetime := by
  simp only [visualize]; split <;> rfl

@[simp] lemma visualize_lat :
    (visualize M cfg e st).fixed_latent_points = st.fixed_latent_points := by
  simp only [visualize]; split <;> rfl

@[simp] lemma visualize_cond :
    (visualize M cfg e st).fixed_conditioning_inputs = st.fixed_conditioning_inputs := by
  simp only [visualize]; split <;> rfl

@[simp] lemma visualize_disk : (visualize M cfg e st).disk = st.disk := by
  simp only [visualize]; split <;> rfl

end FrameLemmas

section FoldLemmas

variable {PG PD Noise Cond Img Score : Type}
variable (M : Env PG PD Noise Cond Img Score) (cfg : Config)

/-- The batch loop never touches the curriculum cursor, the run timestamp,
the fixed latent points, the fixed conditioning inputs, the checkpoint store
or either network's mode. -/
lemma foldBatches_frame (bs : List (Batch Noise Cond Img))
    (st : RunState PG PD Noise Cond Img) :
    (bs.foldl (fun s b => trainBatch M cfg b s) st).current_char_index = st.current_char_index ∧
    (bs.foldl (fun s b => trainBatch M cfg b s) st).current_datetime = st.current_datetime ∧
    (bs.foldl (fun s b => trainBatch M cfg b s) st).fixed_latent_points = st.fixed_latent_points ∧
    (bs.foldl (fun s b => trainBatch M cfg b s) st).fixed_conditioning_inputs
      = st.fixed_conditioning_inputs ∧
    (bs.foldl (fun s b => trainBatch M cfg b s) st).disk = st.disk ∧
    (bs.foldl (fun s b => trainBatch M cfg b s) st).G_mode_train = st.G_mode_train ∧
    (bs.foldl (fun s b => trainBatch M cfg b s) st).D_mode_train = st.D_mode_train := by
  induction bs generalizing st with
  | nil => simp
  | cons hd tl ih =>
      simpa [List.foldl_cons] using ih (trainBatch M cfg hd st)

/-- One epoch never touches the run timestamp, the fixed latent points or the
fixed conditioning inputs. -/
lemma epochBody_frame (bs : List (Batch Noise Cond Img)) (e : ℕ)
    (st : RunState PG PD Noise Cond Img) :
    (epochBody M cfg bs e st).current_datetime = st.current_datetime ∧
    (epochBody M cfg bs e st).fixed_latent_points = st.fixed_latent_points ∧
    (epochBody M cfg bs e st).fixed_conditioning_inputs = st.fixed_conditioning_inputs := by
  simp only [epochBody, unlockPhase, toTrainMode]
  split <;> split <;> split <;>
    simp [foldBatches_frame M cfg bs]

/-- The whole run never touches the run timestamp, the fixed latent points or
the fixed conditioning inputs. -/
lemma runFrom_frame (data : ℕ → List (Batch Noise Cond Img)) (e k : ℕ)
    (st : RunState PG PD Noise Cond Img) :
    (runFrom M cfg data e k st).current_datetime = st.current_datetime ∧
    (runFrom M cfg data e k st).fixed_latent_points = st.fixed_latent_points ∧
    (runFrom M cfg data e k st).fixed_conditioning_inputs = st.fixed_conditioning_inputs := by
  induction k generalizing e st with
  | zero => exact ⟨rfl, rfl, rfl⟩
  | succ k ih =>
      have h1 := ih (e + 1) (epochBody M cfg (data e) e st)
      have h2 := epochBody_frame M cfg (data e) e st
      exact ⟨h1.1.trans h2.1, h1.2.1.trans h2.2.1, h1.2.2.trans h2.2.2⟩

end FoldLemmas

section TraceLemmas

variable {PG PD Noise Cond Img Score : Type}
variable (M : Env PG PD Noise Cond Img Score) (cfg : Config)

/-- Exact event sequence appended by one non-degenerate batch: the batch
entry, the three discriminator scalars and the generator scalar, all tagged
with the single incremented step counter. -/
lemma trainBatch_trace (b : Batch Noise Cond Img) (st : RunState PG PD Noise Cond Img)
    (h : b.size ≠ 1) :
    (trainBatch M cfg b st).trace = st.trace ++
      [Ev.procBatch st.G_mode_train (st.step + 1),
       Ev.logScalar "Loss/Discriminator" (D_loss_val M cfg st b) (st.step + 1),
       Ev.logScalar "Discriminator response/to real images (average)"
         (M.mean_fn (D_real_T M st b).val) (st.step + 1),
       Ev.logScalar "Discriminator response/to fake images (average)"
         (M.mean_fn (D_fake_T M st b).val) (st.step + 1),
       Ev.logScalar "Loss/Generator"
         (G_loss_val M (Dhalf M cfg b (batchEnter st)) b) (st.step + 1)] := by
  simp only [trainBatch, if_neg h, Ghalf, Dhalf, batchEnter, backwardT]
  split <;> split <;>
    simp [D_loss_val, G_loss_val, D_loss_T, avgT, D_loss_real_T, D_loss_fake_T,
      lossT, D_real_T, D_fake_T, D_fake2_T, G_loss_T, G_sample1_T, G_sample2_T,
      dForwardT, gForwardT, detachT, inputT]

end TraceLemmas

section GateLemmas

variable {PG PD Noise Cond Img Score : Type}
variable (M : Env PG PD Noise Cond Img Score) (cfg : Config)
variable (b : Batch Noise Cond Img) (st : RunState PG PD Noise Cond Img)

/-- A non-degenerate batch increments the step counter exactly once. -/
lemma trainBatch_step (h : b.size ≠ 1) :
    (trainBatch M cfg b st).step = st.step + 1 := by
  simp [trainBatch, if_neg h]

/-- Discriminator parameters after a non-degenerate batch: stepped by the
optimizer exactly when the combined loss strictly exceeds the threshold. -/
lemma trainBatch_Dparams (h : b.size ≠ 1) :
    (trainBatch M cfg b st).Dparams =
      (if cfg.D_loss_threshold < D_loss_val M cfg st b then
        M.D_optim_step st.Dparams else st.Dparams) := by
  simp only [trainBatch, if_neg h, Ghalf_Dparams, Dhalf, backwardT, D_loss_val,
    D_loss_T, avgT, D_loss_real_T, D_loss_fake_T, lossT, D_real_T, D_fake_T,
    G_sample1_T, gForwardT, dForwardT, detachT, inputT, batchEnter]
  split <;> rfl

/-- Generator parameters after a non-degenerate batch: stepped by the
optimizer exactly when the generator loss (evaluated after the discriminator
half-step) strictly exceeds the threshold. -/
lemma trainBatch_Gparams (h : b.size ≠ 1) :
    (trainBatch M cfg b st).Gparams =
      (if cfg.G_loss_threshold < G_loss_val M (Dhalf M cfg b (batchEnter st)) b then
        M.G_optim_step st.Gparams else st.Gparams) := by
  simp only [trainBatch, if_neg h, Ghalf, backwardT, G_loss_val, G_loss_T, lossT,
    D_fake2_T, G_sample2_T, dForwardT, gForwardT, inputT]
  split <;> simp

end GateLemmas

section GoodTrace

variable {PG PD Noise Cond Img Score : Type}
variable (M : Env PG PD Noise Cond Img Score) (cfg : Config)

/-- Combined per-event soundness check: mode discipline plus run-scoped
checkpoint paths for the run timestamp `dt`. -/
def evGood {Img : Type} (dt : String) (ev : Ev Img) : Bool :=
  modeOK ev && pathOK dt ev

@[simp] lemma unlockPhase_dt (e : ℕ) (st : RunState PG PD Noise Cond Img) :
    (unlockPhase cfg e st).current_datetime = st.current_datetime := by
  simp only [unlockPhase]; split <;> rfl

@[simp] lemma unlockPhase_gmode (e : ℕ) (st : RunState PG PD Noise Cond Img) :
    (unlockPhase cfg e st).G_mode_train = st.G_mode_train := by
  simp only [unlockPhase]; split <;> rfl

@[simp] lemma toTrainMode_dt (st : RunState PG PD Noise Cond Img) :
    (toTrainMode st).current_datetime = st.current_datetime := rfl

@[simp] lemma toTrainMode_gmode (st : RunState PG PD Noise Cond Img) :
    (toTrainMode st).G_mode_train = true := rfl

/-- Events appended by a batch are good when the generator is in train
mode. -/
lemma trainBatch_good (b : Batch Noise Cond Img) (st : RunState PG PD Noise Cond Img)
    (dt : String) (hm : st.G_mode_train = true) :
    ∀ ev ∈ (trainBatch M cfg b st).trace, ev ∈ st.trace ∨ evGood dt ev = true := by
  intro ev hev
  by_cases hsz : b.size = 1
  · left; simpa [trainBatch, hsz] using hev
  · rw [trainBatch_trace M cfg b st hsz] at hev
    rcases List.mem_append.mp hev with h1 | h1
    · exact Or.inl h1
    · right
      simp only [List.mem_cons, List.not_mem_nil, or_false] at h1
      rcases h1 with h1 | h1 | h1 | h1 | h1 <;> subst h1 <;>
        simp [evGood, modeOK, pathOK, hm]

/-- Events appended by the batch loop are good when the generator is in
train mode at its start. -/
lemma foldBatches_good (bs : List (Batch Noise Cond Img))
    (st : RunState PG PD Noise Cond Img) (dt : String) (hm : st.G_mode_train = true) :
    ∀ ev ∈ (bs.foldl (fun s b => trainBatch M cfg b s) st).trace,
      ev ∈ st.trace ∨ evGood dt ev = true := by
  induction bs generalizing st with
  | nil => intro ev hev; exact Or.inl hev
  | cons hd tl ih =>
      intro ev hev
      simp only [List.foldl_cons] at hev
      have hm' : (trainBatch M cfg hd st).G_mode_train = true := by
        rw [trainBatch_gmode]; exact hm
      rcases ih (trainBatch M cfg hd st) hm' ev hev with h1 | h1
      · exact trainBatch_good M cfg hd st dt hm ev h1
      · exact Or.inr h1

/-- Every fixed-latent-grid event is an image produced in eval mode. -/
lemma fixed_grid_events_good (e : ℕ) (g : PG) (lat : Noise) (cond : Cond)
    (dt : String) :
    ∀ ev ∈ fixed_grid_events M cfg e g lat cond false, evGood dt ev = true := by
  intro ev hev
  simp only [fixed_grid_events, List.mem_append, List.mem_map] at hev
  rcases hev with ⟨p, _, rfl⟩ | ⟨p, _, rfl⟩ <;> simp [evGood, modeOK, pathOK]

/-- Events appended by the visualization block are good. -/
lemma visualize_good (e : ℕ) (st : RunState PG PD Noise Cond Img) (dt : String) :
    ∀ ev ∈ (visualize M cfg e st).trace, ev ∈ st.trace ∨ evGood dt ev = true := by
  have base : ∀ ev ∈ (st.trace ++ [Ev.setGMode false]) ++
      fixed_grid_events M cfg e st.Gparams st.fixed_latent_points
        st.fixed_conditioning_inputs false,
      ev ∈ st.trace ∨ evGood dt ev = true := by
    intro ev hev
    rcases List.mem_append.mp hev with h1 | h1
    · rcases List.mem_append.mp h1 with h2 | h2
      · exact Or.inl h2
      · right
        simp only [List.mem_cons, List.not_mem_nil, or_false] at h2
        subst h2; simp [evGood, modeOK, pathOK]
    · exact Or.inr (fixed_grid_events_good M cfg e _ _ _ dt ev h1)
  intro ev hev
  simp only [visualize] at hev
  split at hev
  · exact base ev hev
  · rcases List.mem_append.mp hev with h1 | h1
    · exact base ev h1
    · right
      simp only [List.mem_map, List.mem_range] at h1
      obtain ⟨i, _, rfl⟩ := h1
      simp [evGood, modeOK, pathOK]

end GoodTrace

section GoodTrace2

variable {PG PD Noise Cond Img Score : Type}
variable (M : Env PG PD Noise Cond Img Score) (cfg : Config)

/-- Events appended by one epoch are good for the state's own timestamp. -/
lemma epochBody_good (bs : List (Batch Noise Cond Img)) (e : ℕ)
    (st : RunState PG PD Noise Cond Img) :
    ∀ ev ∈ (epochBody M cfg bs e st).trace,
      ev ∈ st.trace ∨ evGood st.current_datetime ev = true := by
  have pre : ∀ ev ∈ (toTrainMode (unlockPhase cfg e st)).trace,
      ev ∈ st.trace ∨ evGood st.current_datetime ev = true := by
    intro ev hev
    simp only [toTrainMode, unlockPhase] at hev
    split at hev
    · simp only [List.mem_append, List.mem_cons, List.not_mem_nil, or_false] at hev
      rcases hev with (hev | hev) | hev | hev
      · exact Or.inl hev
      · right; subst hev; simp [evGood, modeOK, pathOK]
      · right; subst hev; simp [evGood, modeOK, pathOK]
      · right; subst hev; simp [evGood, modeOK, pathOK]
    · simp only [List.mem_append, List.mem_cons, List.not_mem_nil, or_false] at hev
      rcases hev with hev | hev | hev
      · exact Or.inl hev
      · right; subst hev; simp [evGood, modeOK, pathOK]
      · right; subst hev; simp [evGood, modeOK, pathOK]
  have hfold := foldBatches_good M cfg bs (toTrainMode (unlockPhase cfg e st))
    st.current_datetime (by simp)
  have hfold2 : ∀ ev ∈ (bs.foldl (fun s b => trainBatch M cfg b s)
      (toTrainMode (unlockPhase cfg e st))).trace,
      ev ∈ st.trace ∨ evGood st.current_datetime ev = true := by
    intro ev hev
    rcases hfold ev hev with h1 | h1
    · exact pre ev h1
    · exact Or.inr h1
  have hdt3 : (bs.foldl (fun s b => trainBatch M cfg b s)
      (toTrainMode (unlockPhase cfg e st))).current_datetime = st.current_datetime := by
    rw [(foldBatches_frame M cfg bs _).2.1]; simp
  have hsave : ∀ ev ∈ (if e % cfg.save_every = 0 then
      saveCheckpoint (bs.foldl (fun s b => trainBatch M cfg b s)
        (toTrainMode (unlockPhase cfg e st)))
      else bs.foldl (fun s b => trainBatch M cfg b s)
        (toTrainMode (unlockPhase cfg e st))).trace,
      ev ∈ st.trace ∨ evGood st.current_datetime ev = true := by
    intro ev hev
    split at hev
    · rw [saveCheckpoint_trace] at hev
      rcases List.mem_append.mp hev with h1 | h1
      · exact hfold2 ev h1
      · right
        simp only [List.mem_cons, List.not_mem_nil, or_false] at h1
        rcases h1 with h1 | h1 <;> subst h1 <;>
          simp [evGood, modeOK, pathOK, hdt3]
    · exact hfold2 ev hev
  intro ev hev
  simp only [epochBody] at hev
  split at hev
  · have hdt4 : (if e % cfg.save_every = 0 then
        saveCheckpoint (bs.foldl (fun s b => trainBatch M cfg b s)
          (toTrainMode (unlockPhase cfg e st)))
        else bs.foldl (fun s b => trainBatch M cfg b s)
          (toTrainMode (unlockPhase cfg e st))).current_datetime = st.current_datetime := by
      split <;> simp [hdt3]
    rcases visualize_good M cfg e _ st.current_datetime ev hev with h1 | h1
    · exact hsave ev h1
    · exact Or.inr h1
  · exact hsave ev hev

/-- Events appended by the epoch loop are good for the state's own
timestamp. -/
lemma runFrom_good (data : ℕ → List (Batch Noise Cond Img)) (e k : ℕ)
    (st : RunState PG PD Noise Cond Img) :
    ∀ ev ∈ (runFrom M cfg data e k st).trace,
      ev ∈ st.trace ∨ evGood st.current_datetime ev = true := by
  induction k generalizing e st with
  | zero => intro ev hev; exact Or.inl hev
  | succ k ih =>
      intro ev hev
      simp only [runFrom] at hev
      have hdt : (epochBody M cfg (data e) e st).current_datetime = st.current_datetime :=
        (epochBody_frame M cfg (data e) e st).1
      rcases (hdt ▸ ih (e + 1) (epochBody M cfg (data e) e st)) ev hev with h1 | h1
      · exact epochBody_good M cfg (data e) e st ev h1
      · exact Or.inr h1

end GoodTrace2

section CursorLemmas

variable {PG PD Noise Cond Img Score : Type}
variable (M : Env PG PD Noise Cond Img Score) (cfg : Config)

@[simp] lemma toTrainMode_cci (st : RunState PG PD Noise Cond Img) :
    (toTrainMode st).current_char_index = st.current_char_index := rfl

/-- The cursor update of the unlock phase is exactly `curriculum_step`. -/
lemma unlockPhase_cci (e : ℕ) (st : RunState PG PD Noise Cond Img) :
    (unlockPhase cfg e st).current_char_index =
      curriculum_step cfg.add_character_every cfg.NUM_CHARS e st.current_char_index := by
  simp only [unlockPhase, curriculum_step]
  split <;> rfl

/-- Over one whole epoch the only cursor change is the unlock phase. -/
lemma epochBody_cci (bs : List (Batch Noise Cond Img)) (e : ℕ)
    (st : RunState PG PD Noise Cond Img) :
    (epochBody M cfg bs e st).current_char_index =
      curriculum_step cfg.add_character_every cfg.NUM_CHARS e st.current_char_index := by
  simp only [epochBody]
  have h1 := (foldBatches_frame M cfg bs (toTrainMode (unlockPhase cfg e st))).1
  split <;> split <;>
    simp [h1, unlockPhase_cci]

end CursorLemmas

section DrawSetLemmas

/-- Filtering an enumeration from `n` by index strictly below `m` and
dropping the indices yields exactly the first `m - n` elements. -/
lemma enumFrom_filter_lt_map_snd {α : Type} (l : List α) (n m : ℕ) :
    ((l.enumFrom n).filter (fun p => decide (p.1 < m))).map Prod.snd = l.take (m - n) := by
  induction l generalizing n with
  | nil => simp
  | cons a t ih =>
      simp only [List.enumFrom_cons, List.filter_cons]
      by_cases h : n < m
      · have hmn : m - n = (m - (n + 1)) + 1 := by omega
        simp [h, ih (n + 1), hmn]
      · have h2 : m - n = 0 := by omega
        have h3 : m - (n + 1) = 0 := by omega
        simp [h, ih (n + 1), h2, h3]

/-- The random-draw list of lines 192-193 is the first `cursor - 1`
vocabulary characters followed by the blank. -/
lemma random_characters_eq_take (vocab : List Char) (cursor : ℕ) :
    random_characters_to_generate vocab cursor = vocab.take (cursor - 1) ++ [' '] := by
  unfold random_characters_to_generate
  have hpred : ∀ p ∈ vocab.enum,
      (decide ((p.1 : ℤ) < (cursor : ℤ) - 1)) = (decide (p.1 < cursor - 1)) := by
    intro p _
    rcases p with ⟨i, c⟩
    simp only [decide_eq_decide]
    omega
  rw [List.filter_congr hpred]
  have : vocab.enum = vocab.enumFrom 0 := rfl
  rw [this, enumFrom_filter_lt_map_snd vocab 0 (cursor - 1), Nat.sub_zero]

end DrawSetLemmas

section GridLemmas

variable {PG PD Noise Cond Img Score : Type}
variable (M : Env PG PD Noise Cond Img Score) (cfg : Config)

/-- Every vocabulary symbol receives a fixed-latent image under both style
suffixes in the grid events. -/
lemma fixed_grid_covers (e : ℕ) (g : PG) (lat : Noise) (cond : Cond) (gmode : Bool)
    (ch : Char) (hch : ch ∈ cfg.vocab) :
    (∃ img, Ev.addImage ("Fixed latent points/" ++ String.mk [ch] ++ "_P") img gmode e ∈
      fixed_grid_events M cfg e g lat cond gmode) ∧
    (∃ img, Ev.addImage ("Fixed latent points/" ++ String.mk [ch] ++ "_G") img gmode e ∈
      fixed_grid_events M cfg e g lat cond gmode) := by
  obtain ⟨i, hi⟩ := List.mem_iff_get.mp hch
  have henum : (i.1, ch) ∈ cfg.vocab.enum := by
    rw [List.mk_mem_enum_iff_getElem?]
    rw [List.getElem?_eq_getElem i.2]
    simp [← hi]
  constructor
  · exact ⟨_, List.mem_append_left _ (List.mem_map.mpr ⟨(i.1, ch), henum, rfl⟩)⟩
  · exact ⟨_, List.mem_append_right _ (List.mem_map.mpr ⟨(i.1, ch), henum, rfl⟩)⟩

end GridLemmas

section TraceMono

variable {PG PD Noise Cond Img Score : Type}
variable (M : Env PG PD Noise Cond Img Score) (cfg : Config)

/-- The batch loop only appends to the trace. -/
lemma mem_trainBatch (b : Batch Noise Cond Img) (st : RunState PG PD Noise Cond Img)
    {ev : Ev Img} (hev : ev ∈ st.trace) : ev ∈ (trainBatch M cfg b st).trace := by
  by_cases hsz : b.size = 1
  · simpa [trainBatch, hsz] using hev
  · rw [trainBatch_trace M cfg b st hsz]
    exact List.mem_append_left _ hev

/-- The batch-loop fold only appends to the trace. -/
lemma mem_foldBatches (bs : List (Batch Noise Cond Img))
    (st : RunState PG PD Noise Cond Img) {ev : Ev Img} (hev : ev ∈ st.trace) :
    ev ∈ (bs.foldl (fun s b => trainBatch M cfg b s) st).trace := by
  induction bs generalizing st with
  | nil => exact hev
  | cons hd tl ih => exact ih (trainBatch M cfg hd st) (mem_trainBatch M cfg hd st hev)

/-- The visualization block only appends to the trace. -/
lemma mem_visualize (e : ℕ) (st : RunState PG PD Noise Cond Img)
    {ev : Ev Img} (hev : ev ∈ st.trace) : ev ∈ (visualize M cfg e st).trace := by
  simp only [visualize]
  split
  · exact List.mem_append_left _ (List.mem_append_left _ hev)
  · exact List.mem_append_left _
      (List.mem_append_left _ (List.mem_append_left _ hev))

/-- One epoch only appends to the trace of the post-batch-loop state. -/
lemma mem_epochBody_of_fold (bs : List (Batch Noise Cond Img)) (e : ℕ)
    (st : RunState PG PD Noise Cond Img) {ev : Ev Img}
    (hev : ev ∈ (bs.foldl (fun s b => trainBatch M cfg b s)
      (toTrainMode (unlockPhase cfg e st))).trace) :
    ev ∈ (epochBody M cfg bs e st).trace := by
  simp only [epochBody]
  have hsave : ev ∈ (if e % cfg.save_every = 0 then
      saveCheckpoint (bs.foldl (fun s b => trainBatch M cfg b s)
        (toTrainMode (unlockPhase cfg e st)))
      else bs.foldl (fun s b => trainBatch M cfg b s)
        (toTrainMode (unlockPhase cfg e st))).trace := by
    split
    · rw [saveCheckpoint_trace]; exact List.mem_append_left _ hev
    · exact hev
  split
  · exact mem_visualize M cfg e _ hsave
  · exact hsave

/-- The epoch loop only appends to the trace. -/
lemma mem_runFrom (data : ℕ → List (Batch Noise Cond Img)) (e k : ℕ)
    (st : RunState PG PD Noise Cond Img) {ev : Ev Img} (hev : ev ∈ st.trace) :
    ev ∈ (runFrom M cfg data e k st).trace := by
  induction k generalizing e st with
  | zero => exact hev
  | succ k ih =>
      have h1 : ev ∈ (epochBody M cfg (data e) e st).trace := by
        apply mem_epochBody_of_fold
        apply mem_foldBatches
        simp only [toTrainMode, unlockPhase]
        split
        · exact List.mem_append_left _ (List.mem_append_left _ hev)
        · exact List.mem_append_left _ hev
      exact ih (e + 1) _ h1

end TraceMono

/-- C1: for every non-degenerate batch and each side, the optimizer update
occurs iff that side's loss strictly exceeds its configured threshold
(`D_loss_threshold` / `G_loss_threshold`); at or below the threshold the
side's parameters are unchanged after the batch, and the loss value is
reported to the monitoring sink in either case. -/
theorem C1_stability_gate {PG PD Noise Cond Img Score : Type}
    (M : Env PG PD Noise Cond Img Score) (cfg : Config)
    (b : Batch Noise Cond Img) (st : RunState PG PD Noise Cond Img)
    (h : b.size ≠ 1) :
    ((trainBatch M cfg b st).Dparams =
       (if cfg.D_loss_threshold < D_loss_val M cfg st b then
         M.D_optim_step st.Dparams else st.Dparams)) ∧
    (D_loss_val M cfg st b ≤ cfg.D_loss_threshold →
       (trainBatch M cfg b st).Dparams = st.Dparams) ∧
    ((trainBatch M cfg b st).Gparams =
       (if cfg.G_loss_threshold < G_loss_val M (Dhalf M cfg b (batchEnter st)) b then
         M.G_optim_step st.Gparams else st.Gparams)) ∧
    (G_loss_val M (Dhalf M cfg b (batchEnter st)) b ≤ cfg.G_loss_threshold →
       (trainBatch M cfg b st).Gparams = st.Gparams) ∧
    Ev.logScalar "Loss/Discriminator" (D_loss_val M cfg st b) (st.step + 1) ∈
      (trainBatch M cfg b st).trace ∧
    Ev.logScalar "Loss/Generator" (G_loss_val M (Dhalf M cfg b (batchEnter st)) b)
      (st.step + 1) ∈ (trainBatch M cfg b st).trace := by
  refine ⟨trainBatch_Dparams M cfg b st h, ?_, trainBatch_Gparams M cfg b st h, ?_, ?_, ?_⟩
  · intro hle
    rw [trainBatch_Dparams M cfg b st h, if_neg (not_lt.mpr hle)]
  · intro hle
    rw [trainBatch_Gparams M cfg b st h, if_neg (not_lt.mpr hle)]
  · rw [trainBatch_trace M cfg b st h]
    simp
  · rw [trainBatch_trace M cfg b st h]
    simp

/-- Witness for C1 at a concrete batch of size 2. -/
theorem C1_stability_gate_witness :
    (trainBatch envQ cfgQ bQ stQ).Dparams =
      (if cfgQ.D_loss_threshold < D_loss_val envQ cfgQ stQ bQ then
        envQ.D_optim_step stQ.Dparams else stQ.Dparams) :=
  (C1_stability_gate envQ cfgQ bQ stQ (by decide)).1

/-- C2: the curriculum cursor advances by at most one per epoch boundary,
advances by exactly one iff the epoch number is divisible by the unlock
interval and the cursor has not reached `NUM_CHARS`, is a no-op once the
vocabulary is exhausted, never exceeds `NUM_CHARS`, and the cursor after one
epoch of the trainer is exactly this update. -/
theorem C2_curriculum_cursor (K N e c : ℕ) (h : c ≤ N) :
    (curriculum_step K N e c = c ∨ curriculum_step K N e c = c + 1) ∧
    (curriculum_step K N e c = c + 1 ↔ (e % K = 0 ∧ c < N)) ∧
    curriculum_step K N e c ≤ N ∧
    (N ≤ c → curriculum_step K N e c = c) ∧
    (∀ {PG PD Noise Cond Img Score : Type} (M : Env PG PD Noise Cond Img Score)
       (cfg : Config) (bs : List (Batch Noise Cond Img))
       (st : RunState PG PD Noise Cond Img),
       cfg.add_character_every = K → cfg.NUM_CHARS = N → st.current_char_index = c →
       (epochBody M cfg bs e st).current_char_index = curriculum_step K N e c) := by
  refine ⟨?_, ?_, ?_, ?_, ?_⟩
  · unfold curriculum_step; split
    · exact Or.inr rfl
    · exact Or.inl rfl
  · unfold curriculum_step; split
    · simp_all
    · simp_all
  · unfold curriculum_step; split
    · omega
    · exact h
  · intro hN; unfold curriculum_step
    rw [if_neg]
    rintro ⟨-, hlt⟩
    omega
  · intro PG PD Noise Cond Img Score M cfg bs st hK hN hc
    rw [epochBody_cci M cfg bs e st, hK, hN, hc]

/-- Witness for C2 at interval 2, vocabulary size 2, epoch 4, cursor 1. -/
theorem C2_curriculum_cursor_witness :
    curriculum_step 2 2 4 1 = 1 + 1 ↔ (4 % 2 = 0 ∧ 1 < 2) :=
  (C2_curriculum_cursor 2 2 4 1 (by decide)).2.1

/-- C3: a batch of size exactly 1 is silently skipped (state, counter, and
logged metrics all unchanged), while every batch of size greater than 1
increments the step counter exactly once and tags all five of its trace
events with that single incremented counter. -/
theorem C3_degenerate_batch_skip {PG PD Noise Cond Img Score : Type}
    (M : Env PG PD Noise Cond Img Score) (cfg : Config)
    (b : Batch Noise Cond Img) (st : RunState PG PD Noise Cond Img) :
    (b.size = 1 → trainBatch M cfg b st = st) ∧
    (1 < b.size →
      (trainBatch M cfg b st).step = st.step + 1 ∧
      (trainBatch M cfg b st).trace = st.trace ++
        [Ev.procBatch st.G_mode_train (st.step + 1),
         Ev.logScalar "Loss/Discriminator" (D_loss_val M cfg st b) (st.step + 1),
         Ev.logScalar "Discriminator response/to real images (average)"
           (M.mean_fn (D_real_T M st b).val) (st.step + 1),
         Ev.logScalar "Discriminator response/to fake images (average)"
           (M.mean_fn (D_fake_T M st b).val) (st.step + 1),
         Ev.logScalar "Loss/Generator"
           (G_loss_val M (Dhalf M cfg b (batchEnter st)) b) (st.step + 1)]) := by
  constructor
  · intro h1
    simp [trainBatch, h1]
  · intro h2
    have hne : b.size ≠ 1 := by omega
    exact ⟨trainBatch_step M cfg b st hne, trainBatch_trace M cfg b st hne⟩

/-- Witness for C3: a size-1 batch is a no-op and a size-2 batch increments
the counter. -/
theorem C3_degenerate_batch_skip_witness :
    trainBatch envQ cfgQ b1Q stQ = stQ ∧
    (trainBatch envQ cfgQ bQ stQ).step = stQ.step + 1 :=
  ⟨(C3_degenerate_batch_skip envQ cfgQ b1Q stQ).1 (by decide),
   ((C3_degenerate_batch_skip envQ cfgQ bQ stQ).2 (by decide)).1⟩

/-- C4: the discriminator's real-example target is 1 scaled by 0.75 when
soft labels are enabled and exactly 1 otherwise (so soft labels strictly
reduce it), the fake-example target is 0 and the generator's target is 1
regardless of the flag, and these are exactly the targets the three loss
computations use. -/
theorem C4_label_targets :
    real_target true = 3 / 4 ∧
    real_target false = 1 ∧
    real_target true < real_target false ∧
    fake_target = 0 ∧
    gen_target = 1 ∧
    (∀ {PG PD Noise Cond Img Score : Type} (M : Env PG PD Noise Cond Img Score)
       (cfg : Config) (st : RunState PG PD Noise Cond Img) (b : Batch Noise Cond Img),
       (D_loss_real_T M cfg st b).val =
         M.D_loss_fn (D_real_T M st b).val (real_target cfg.use_soft_labels) ∧
       (D_loss_fake_T M st b).val = M.D_loss_fn (D_fake_T M st b).val fake_target ∧
       (G_loss_T M st b).val = M.G_loss_fn (D_fake2_T M st b).val gen_target) := by
  refine ⟨?_, ?_, ?_, rfl, rfl, ?_⟩
  · norm_num [real_target, one_label_coefficient]
  · norm_num [real_target, one_label_coefficient]
  · norm_num [real_target, one_label_coefficient]
  · intro PG PD Noise Cond Img Score M cfg st b
    exact ⟨rfl, rfl, rfl⟩

/-- C5: for every batch of size greater than 1 the combined discriminator
loss equals the arithmetic mean of the real-example loss and the
fake-example loss, and this mean is the value logged for the batch. -/
theorem C5_discriminator_loss_mean {PG PD Noise Cond Img Score : Type}
    (M : Env PG PD Noise Cond Img Score) (cfg : Config)
    (b : Batch Noise Cond Img) (st : RunState PG PD Noise Cond Img)
    (h : 1 < b.size) :
    D_loss_val M cfg st b =
      ((D_loss_real_T M cfg st b).val + (D_loss_fake_T M st b).val) / 2 ∧
    Ev.logScalar "Loss/Discriminator"
      (((D_loss_real_T M cfg st b).val + (D_loss_fake_T M st b).val) / 2)
      (st.step + 1) ∈ (trainBatch M cfg b st).trace := by
  have hne : b.size ≠ 1 := by omega
  refine ⟨rfl, ?_⟩
  rw [trainBatch_trace M cfg b st hne]
  simp [D_loss_val, D_loss_T, avgT]

/-- Witness for C5 at a concrete batch of size 2. -/
theorem C5_discriminator_loss_mean_witness :
    D_loss_val envQ cfgQ stQ bQ =
      ((D_loss_real_T envQ cfgQ stQ bQ).val + (D_loss_fake_T envQ stQ bQ).val) / 2 :=
  (C5_discriminator_loss_mean envQ cfgQ bQ stQ (by decide)).1

/-- C6 counterexample: with vocabulary `[' ', 'a']` and cursor 2, the
character `'a'` is unlocked (its index 1 is below the cursor) yet it is not
in the random-draw list, because the code filters indices strictly below
`cursor - 1`, excluding the most recently unlocked character. -/
theorem C6_random_draw_counterexample :
    'a' ∈ unlocked_characters [' ', 'a'] 2 ∧
    'a' ∉ random_characters_to_generate [' ', 'a'] 2 := by
  decide

/-- C6 amended: at a visualization hit the random-draw list consists of
exactly the characters whose index is strictly below `cursor - 1` (the
unlocked vocabulary minus its most recently unlocked character) plus the
blank symbol; blank is always available, and every drawable non-blank
character is indeed unlocked. -/
theorem C6_random_draw_amended (vocab : List Char) (cursor : ℕ) (c : Char) :
    (c ∈ random_characters_to_generate vocab cursor ↔
      c ∈ vocab.take (cursor - 1) ∨ c = ' ') ∧
    ' ' ∈ random_characters_to_generate vocab cursor ∧
    (∀ x ∈ vocab.take (cursor - 1), x ∈ unlocked_characters vocab cursor) := by
  refine ⟨?_, ?_, ?_⟩
  · rw [random_characters_eq_take]
    simp
  · rw [random_characters_eq_take]
    simp
  · intro x hx
    unfold unlocked_characters
    have htt : vocab.take (cursor - 1) = (vocab.take cursor).take (cursor - 1) := by
      rw [List.take_take, min_eq_left (by omega)]
    rw [htt] at hx
    exact List.take_subset _ _ hx

/-- C7: the fixed latent points and conditioning inputs set up before the
epoch loop are never re-drawn during the run, the fixed-latent grid is a
deterministic function of the generator parameters, the latent points and
the conditioning (equal inputs give identical grid events), and the grid
pairs every vocabulary symbol with both the style-0 suffix and the style-1
suffix. -/
theorem C7_fixed_latent_grid {PG PD Noise Cond Img Score : Type}
    (M : Env PG PD Noise Cond Img Score) (cfg : Config)
    (data : ℕ → List (Batch Noise Cond Img)) (n : ℕ)
    (g : PG) (d : PD) (dt : String) (idx : ℕ) (lat : Noise) (cond : Cond)
    (e : ℕ) (gmode : Bool) (st1 st2 : RunState PG PD Noise Cond Img)
    (hG : st1.Gparams = st2.Gparams)
    (hL : st1.fixed_latent_points = st2.fixed_latent_points)
    (hC : st1.fixed_conditioning_inputs = st2.fixed_conditioning_inputs) :
    (runTrain M cfg data n (initState g d dt idx lat cond)).fixed_latent_points = lat ∧
    (runTrain M cfg data n (initState g d dt idx lat cond)).fixed_conditioning_inputs
      = cond ∧
    fixed_grid_events M cfg e st1.Gparams st1.fixed_latent_points
        st1.fixed_conditioning_inputs gmode =
      fixed_grid_events M cfg e st2.Gparams st2.fixed_latent_points
        st2.fixed_conditioning_inputs gmode ∧
    (∀ ch ∈ cfg.vocab,
      (∃ img, Ev.addImage ("Fixed latent points/" ++ String.mk [ch] ++ "_P") img gmode e ∈
        fixed_grid_events M cfg e st1.Gparams st1.fixed_latent_points
          st1.fixed_conditioning_inputs gmode) ∧
      (∃ img, Ev.addImage ("Fixed latent points/" ++ String.mk [ch] ++ "_G") img gmode e ∈
        fixed_grid_events M cfg e st1.Gparams st1.fixed_latent_points
          st1.fixed_conditioning_inputs gmode)) := by
  refine ⟨?_, ?_, by rw [hG, hL, hC], fun ch hch => fixed_grid_covers M cfg e _ _ _ gmode ch hch⟩
  · exact (runFrom_frame M cfg data 1 n _).2.1
  · exact (runFrom_frame M cfg data 1 n _).2.2

/-- Witness for C7 on a concrete one-epoch run. -/
theorem C7_fixed_latent_grid_witness :
    (runTrain envQ cfgQ dataQ 1 (initState 0 0 "run" 1 0 0)).fixed_latent_points = 0 :=
  (C7_fixed_latent_grid envQ cfgQ dataQ 1 0 0 "run" 1 0 0 5 false stQ stQ rfl rfl rfl).1

/-- C8: every checkpoint written during a run lands on one of the two paths
derived from the timestamp fixed at construction (which the run never
changes), a checkpoint write overwrites exactly those two paths with the
current parameter sets, and saving twice with unchanged parameters leaves a
bit-identical store. -/
theorem C8_checkpoint_run_scoped {PG PD Noise Cond Img Score : Type}
    (M : Env PG PD Noise Cond Img Score) (cfg : Config)
    (data : ℕ → List (Batch Noise Cond Img)) (n : ℕ)
    (g : PG) (d : PD) (dt : String) (idx : ℕ) (lat : Noise) (cond : Cond)
    (p : String)
    (hp : Ev.savedModel p ∈
      (runTrain M cfg data n (initState g d dt idx lat cond)).trace) :
    (p = G_model_path dt ∨ p = D_model_path dt) ∧
    (runTrain M cfg data n (initState g d dt idx lat cond)).current_datetime = dt ∧
    (∀ st : RunState PG PD Noise Cond Img,
      (saveCheckpoint (saveCheckpoint st)).disk = (saveCheckpoint st).disk ∧
      (saveCheckpoint st).Gparams = st.Gparams ∧
      (saveCheckpoint st).Dparams = st.Dparams ∧
      (saveCheckpoint st).current_datetime = st.current_datetime ∧
      (saveCheckpoint st).disk =
        diskWrite (diskWrite st.disk (G_model_path st.current_datetime)
          (Sum.inl st.Gparams)) (D_model_path st.current_datetime)
          (Sum.inr st.Dparams)) := by
  refine ⟨?_, (runFrom_frame M cfg data 1 n _).1, ?_⟩
  · rcases runFrom_good M cfg data 1 n _ (Ev.savedModel p) hp with h1 | h1
    · simp [initState] at h1
    · simp only [evGood, Bool.and_eq_true, pathOK, Bool.or_eq_true,
        decide_eq_true_eq] at h1
      exact h1.2
  · intro st
    refine ⟨?_, rfl, rfl, rfl, rfl⟩
    funext q
    simp only [saveCheckpoint, diskWrite]
    split_ifs <;> rfl

/-- Witness for C8 on a concrete one-epoch run with checkpoint cadence 1. -/
theorem C8_checkpoint_run_scoped_witness :
    G_model_path "run" = G_model_path "run" ∨ G_model_path "run" = D_model_path "run" := by
  have hdt : ((dataQ 1).foldl (fun s b => trainBatch envQ cfgQ b s)
      (toTrainMode (unlockPhase cfgQ 1 stQ))).current_datetime = "run" := by
    rw [(foldBatches_frame envQ cfgQ (dataQ 1) _).2.1]
    rfl
  have h3 : Ev.savedModel (G_model_path "run") ∈
      (saveCheckpoint ((dataQ 1).foldl (fun s b => trainBatch envQ cfgQ b s)
        (toTrainMode (unlockPhase cfgQ 1 stQ)))).trace := by
    rw [saveCheckpoint_trace, hdt]
    exact List.mem_append_right _ (List.mem_cons_self _ _)
  have h4 : Ev.savedModel (G_model_path "run") ∈
      (epochBody envQ cfgQ (dataQ 1) 1 stQ).trace := by
    simp only [epochBody]
    rw [if_pos (by decide : (1:ℕ) % cfgQ.produce_every = 0)]
    apply mem_visualize
    rw [if_pos (by decide : (1:ℕ) % cfgQ.save_every = 0)]
    exact h3
  exact (C8_checkpoint_run_scoped envQ cfgQ dataQ 1 0 0 "run" 1 0 0
    (G_model_path "run") h4).1

/-- C9: every event of a training run respects the generator's mode
discipline: batches are processed only in train mode, and both kinds of
visualization artifacts are produced only in eval mode — the generator is
switched to eval before the grid and the samples and back to train before
any further batch. -/
theorem C9_eval_mode_discipline {PG PD Noise Cond Img Score : Type}
    (M : Env PG PD Noise Cond Img Score) (cfg : Config)
    (data : ℕ → List (Batch Noise Cond Img)) (n : ℕ)
    (g : PG) (d : PD) (dt : String) (idx : ℕ) (lat : Noise) (cond : Cond)
    (ev : Ev Img)
    (hev : ev ∈ (runTrain M cfg data n (initState g d dt idx lat cond)).trace) :
    modeOK ev = true := by
  rcases runFrom_good M cfg data 1 n _ ev hev with h1 | h1
  · simp [initState] at h1
  · simp only [evGood, Bool.and_eq_true] at h1
    exact h1.1

/-- Witness for C9: the batch processed in a concrete one-epoch run is an
event of its trace, and it carries train mode. -/
theorem C9_eval_mode_discipline_witness :
    modeOK (Ev.procBatch true 1 : Ev ℚ) = true := by
  apply C9_eval_mode_discipline envQ cfgQ dataQ 1 (0:ℚ) (0:ℚ) "run" 1 (0:ℚ) (0:ℚ)
  have h1 : Ev.procBatch true 1 ∈
      (trainBatch envQ cfgQ bQ (toTrainMode (unlockPhase cfgQ 1 stQ))).trace := by
    rw [trainBatch_trace envQ cfgQ bQ _ (by decide)]
    exact List.mem_append_right _ (List.mem_cons_self _ _)
  exact mem_epochBody_of_fold envQ cfgQ (dataQ 1) 1 stQ h1

/-- C10: in the discriminator half-step the fake image is detached from the
generator — neither the fake's score nor the combined loss reaches the
generator's parameters in the graph — so the backward pass deposits no
generator gradient and the half-step leaves the generator's parameters (and
its gradient accumulator) unchanged; the non-degenerate batch is exactly
this half-step followed by the generator half-step. -/
theorem C10_detached_discriminator_half {PG PD Noise Cond Img Score : Type}
    (M : Env PG PD Noise Cond Img Score) (cfg : Config)
    (b : Batch Noise Cond Img) (st : RunState PG PD Noise Cond Img) :
    (D_fake_T M st b).depG = false ∧
    (D_loss_T M cfg st b).depG = false ∧
    (Dhalf M cfg b st).Gparams = st.Gparams ∧
    (Dhalf M cfg b st).Ggrad = st.Ggrad ∧
    (b.size ≠ 1 → trainBatch M cfg b st = Ghalf M cfg b (Dhalf M cfg b (batchEnter st))) := by
  refine ⟨rfl, rfl, Dhalf_Gparams M cfg b st, Dhalf_Ggrad M cfg b st, ?_⟩
  intro h
  simp [trainBatch, h]

/-- Witness for C10 at a concrete batch of size 2. -/
theorem C10_detached_discriminator_half_witness :
    trainBatch envQ cfgQ bQ stQ = Ghalf envQ cfgQ bQ (Dhalf envQ cfgQ bQ (batchEnter stQ)) :=
  (C10_detached_discriminator_half envQ cfgQ bQ stQ).2.2.2.2 (by decide)

/-- Witness for C4: soft labels strictly reduce the real target. -/
theorem C4_label_targets_witness : real_target true < real_target false :=
  C4_label_targets.2.2.1

/-- Witness for C6 amended at vocabulary of two characters and cursor 3. -/
theorem C6_random_draw_amended_witness :
    ('a' ∈ random_characters_to_generate [' ', 'a'] 3 ↔
      'a' ∈ [' ', 'a'].take 2 ∨ 'a' = ' ') :=
  (C6_random_draw_amended [' ', 'a'] 3 'a').1
